import Mathlib

/-!
Shallow embedding of `proj2_nps.py`: a cache-mediated data-acquisition
pipeline for National Park Service sites.  The module-level constants,
the `NationalSite` record, the four fetch-or-reuse resolvers and the
cache persistence functions are translated here as pure functions over
an explicit cache state; network access is an explicit environment and
each `requests.get` call is counted.  External collaborators (the HTML
parsing library, the HTTP transport, the JSON codec of the standard
library) are modelled as black boxes, exactly as the spec scopes them.
-/

set_option autoImplicit false

namespace NPS

/-- `BASE_URL = 'https://www.nps.gov'` (line 11). -/
def BASE_URL : String := "https://www.nps.gov"

/-- `INDEX_URL = '/index.htm'` (line 12). -/
def INDEX_URL : String := "/index.htm"

/-- `CACHE_FILE_NAME = 'cache.json'` (line 13). -/
def CACHE_FILE_NAME : String := "cache.json"

/-- JSON values, as decoded by the standard `json` library.  Used for
the raw places-search API payload, which the program caches verbatim. -/
inductive Json where
  | null : Json
  | bool (b : Bool) : Json
  | num (n : Int) : Json
  | str (s : String) : Json
  | arr (elems : List Json) : Json
  | obj (fields : List (String × Json)) : Json

/-- Python `str.strip()`: remove whitespace from both ends. -/
def pyStrip (s : String) : String :=
  ⟨((s.data.dropWhile Char.isWhitespace).reverse.dropWhile Char.isWhitespace).reverse⟩

/-- Python `str.lower()`: lowercase every character. -/
def pyLower (s : String) : String :=
  ⟨s.data.map Char.toLower⟩

/-- Association-list lookup: Python `d[k]` / `k in d.keys()` on a dict
whose keys are kept unique by `alistSet`. -/
def alistLookup {α : Type} : List (String × α) → String → Option α
  | [], _ => none
  | (k', v) :: rest, k => if k' = k then some v else alistLookup rest k

/-- Association-list update: Python `d[k] = v` — replace the value in
place when the key is present, append otherwise (dict semantics). -/
def alistSet {α : Type} : List (String × α) → String → α → List (String × α)
  | [], k, v => [(k, v)]
  | (k', v') :: rest, k, v =>
      if k' = k then (k, v) :: rest else (k', v') :: alistSet rest k v

/-- The five-field record the Site Detail Resolver stores in the cache
under a site URL (lines 150-154: a dict with keys `name`, `category`,
`address`, `zipcode`, `phone`). -/
structure SiteRecord where
  name : String
  category : String
  address : String
  zipcode : String
  phone : String
deriving DecidableEq, Repr

/-- A cached value: the heterogeneous shapes the flat cache namespace
holds (§3 of the spec): a state-name → URL mapping, an ordered list of
site detail URLs, a five-field site record, or a raw places response. -/
inductive CacheVal where
  | stateMap (m : List (String × String)) : CacheVal
  | urlList (l : List String) : CacheVal
  | siteRecord (r : SiteRecord) : CacheVal
  | places (j : Json) : CacheVal

/-- `CACHE_DICT`: a string-keyed mapping, insertion ordered. -/
def Cache : Type := List (String × CacheVal)

/-- The empty cache `{}`. -/
def Cache.empty : Cache := []

/-- An `<a>` element, reduced to the two features the program reads:
its visible text (`get_text()` / `.text`) and its `href` attribute. -/
structure Anchor where
  text : String
  href : String
deriving DecidableEq, Repr

/-- The directory page as the Directory Resolver sees it: the
keyword-search `div` (located by class) with its `<a>` descendants, or
`none` when that container is absent (then `find_all` on `None`
raises).  `find_all('a')` yields the anchors in document order. -/
def MainPage : Type := Option (List Anchor)

/-- A state page as the Site List Resolver sees it: the
`parkListResultsArea` container with one entry per `<h3>` in document
order, each holding its first `<a>` or `none` when the heading has no
anchor (then `.attrs` on `None` raises); the whole page is `none` when
the container is absent. -/
def StatePage : Type := Option (List (Option Anchor))

/-- The hero block of a detail page: the text of its first `<a>`
(`none` when no anchor is present, so `get_text` on `None` raises) and
the text of its `Hero-designation` span (`none` when absent). -/
structure HeroContainer where
  titleAnchor : Option String
  designationSpan : Option String
deriving DecidableEq, Repr

/-- The `vcard` address card: the text of each item-property-marked
span, `none` when the marker is absent. -/
structure Vcard where
  addressLocality : Option String
  addressRegion : Option String
  postalCode : Option String
  telephone : Option String
deriving DecidableEq, Repr

/-- A site detail page: the hero title container (`none` when the
`div` is absent) and the `vcard` container (`none` when absent). -/
structure DetailPage where
  heroContainer : Option HeroContainer
  vcard : Option Vcard
deriving DecidableEq, Repr

/-- Query parameters of the MapQuest radius search (lines 260-261). -/
structure PlacesParams where
  key : String
  origin : String
  radius : Nat
  maxMatches : Nat
  ambiguities : String
  outFormat : String
deriving DecidableEq, Repr

/-- The network environment: what each `requests.get` returns, after
the black-box HTML parse.  Deterministic within one session. -/
structure Env where
  mainPage : MainPage
  statePages : String → StatePage
  detailPages : String → DetailPage
  placesApi : String → PlacesParams → Json
  apiKey : String

/-- Result of running one resolver call: the returned value (or the
uncaught Python exception), the cache state afterwards, the number of
`requests.get` network calls performed, and the lines printed. -/
structure RunResult (α : Type) where
  result : Except String α
  cache : Cache
  fetches : Nat
  log : List String

/-- `NationalSite` (lines 16-44): five string attributes.  The
`__init__` defaults are `siteDefaults` below. -/
structure NationalSite where
  category : String
  name : String
  address : String
  zipcode : String
  phone : String
deriving DecidableEq, Repr

/-- The `__init__` default arguments (lines 37-39). -/
def siteDefaults : NationalSite :=
  { category := "no category", name := "no name", address := "no address",
    zipcode := "no zipcode", phone := "no phone" }

/-- `NationalSite.info` (lines 46-57). -/
def NationalSite.info (s : NationalSite) : String :=
  s.name ++ " (" ++ s.category ++ "): " ++ s.address ++ " " ++ s.zipcode

/-- State of the backing cache file, with the external `json` codec
treated as a black box: the file is absent, holds content on which
`json.loads` raises, or holds content that decodes to a cache
mapping. -/
inductive FileContent where
  | absent : FileContent
  | corrupt : FileContent
  | valid (cache : Cache) : FileContent

/-- `load_cache` (lines 60-79): `try` to open, read and `json.loads`
the cache file; on any failure (`except:` catches everything — missing
file or undecodable content) the cache is `{}`. -/
def load_cache : FileContent → Cache
  | .absent => Cache.empty
  | .corrupt => Cache.empty
  | .valid cache => cache

/-- `save_cache` (lines 82-96): `json.dumps` the whole mapping and
overwrite the backing file with it in a single write. -/
def save_cache (cache : Cache) : FileContent :=
  FileContent.valid cache

/-- The loop body of lines 121-122: `output[state.text.lower()] =
BASE_URL + state.attrs['href']` over `states_info` in document
order. -/
def buildStateOutput (states_info : List Anchor) : List (String × String) :=
  states_info.foldl
    (fun output state => alistSet output (pyLower state.text) (BASE_URL ++ state.href))
    []

/-- `build_state_url_dict` (lines 99-127): fetch-or-reuse the state
name → state URL mapping under the key `BASE_URL + INDEX_URL`.  The
hit branch returns `CACHE_DICT[main_page_url]` verbatim, whatever its
shape, hence the `CacheVal` result. -/
def build_state_url_dict (env : Env) (cache : Cache) : RunResult CacheVal :=
  let main_page_url := BASE_URL ++ INDEX_URL
  match alistLookup cache main_page_url with
  | some v => ⟨Except.ok v, cache, 0, ["Using cache"]⟩
  | none =>
      match env.mainPage with
      | none =>
          ⟨Except.error "AttributeError: NoneType has no attribute find_all",
            cache, 1, ["Fetching"]⟩
      | some states_info =>
          let output := buildStateOutput states_info
          ⟨Except.ok (CacheVal.stateMap output),
            alistSet cache main_page_url (CacheVal.stateMap output), 1, ["Fetching"]⟩

/-- `if temp_info is None: ... else: ...` (lines 167-173): the text of
an item-property span, trimmed, with an absent marker or a blank
trimmed text replaced by the sentinel `'no ' + key`. -/
def extractItemProp (span_text : Option String) (key : String) : String :=
  match span_text with
  | none => "no " ++ key
  | some t => if pyStrip t ≠ "" then pyStrip t else "no " ++ key

/-- The shared return of `get_site_instance` (lines 183-187): build a
`NationalSite` from the five fields of `CACHE_DICT[site_url]`.  A
missing key or a non-record shape would raise (`KeyError` /
`TypeError`). -/
def buildFromCache (cache : Cache) (site_url : String) (fetches : Nat)
    (log : List String) : RunResult NationalSite :=
  match alistLookup cache site_url with
  | some (CacheVal.siteRecord r) =>
      ⟨Except.ok { category := r.category, name := r.name, address := r.address,
                   zipcode := r.zipcode, phone := r.phone },
        cache, fetches, log⟩
  | _ => ⟨Except.error "KeyError", cache, fetches, log⟩

/-- `get_site_instance` (lines 130-187).  On a miss the partial record
of lines 150-154 is stored first; the category update of lines 157-158
and the three field updates of lines 177-179 are each written as one
whole-record `alistSet` of the nested-dict mutation.  An absent hero
container, absent title anchor, absent designation span or absent
vcard raises `AttributeError` at the corresponding line, leaving the
cache as mutated so far. -/
def get_site_instance (env : Env) (cache : Cache) (site_url : String) :
    RunResult NationalSite :=
  match alistLookup cache site_url with
  | some _ => buildFromCache cache site_url 0 ["Using cache"]
  | none =>
      let page := env.detailPages site_url
      match page.heroContainer with
      | none =>
          ⟨Except.error "AttributeError: NoneType has no attribute find",
            cache, 1, ["Fetching"]⟩
      | some hero =>
          match hero.titleAnchor with
          | none =>
              ⟨Except.error "AttributeError: NoneType has no attribute get_text",
                cache, 1, ["Fetching"]⟩
          | some title =>
              let park_name_info := pyStrip title
              let cache1 := alistSet cache site_url (CacheVal.siteRecord
                { name := park_name_info, category := "no category",
                  address := "no address", zipcode := "no zipcode",
                  phone := "no phone" })
              match hero.designationSpan with
              | none =>
                  ⟨Except.error "AttributeError: NoneType has no attribute get_text",
                    cache1, 1, ["Fetching"]⟩
              | some desig =>
                  let category_info := pyStrip desig
                  let category := if category_info ≠ "" then category_info
                                  else "no category"
                  let cache2 := alistSet cache1 site_url (CacheVal.siteRecord
                    { name := park_name_info, category := category,
                      address := "no address", zipcode := "no zipcode",
                      phone := "no phone" })
                  match page.vcard with
                  | none =>
                      ⟨Except.error "AttributeError: NoneType has no attribute find",
                        cache2, 1, ["Fetching"]⟩
                  | some card =>
                      let locality := extractItemProp card.addressLocality "address"
                      let region := extractItemProp card.addressRegion "state"
                      let zipcode := extractItemProp card.postalCode "zipcode"
                      let phone := extractItemProp card.telephone "phone"
                      let address := locality ++ ", " ++ region
                      let cache3 := alistSet cache2 site_url (CacheVal.siteRecord
                        { name := park_name_info, category := category,
                          address := address, zipcode := zipcode, phone := phone })
                      buildFromCache cache3 site_url 1 ["Fetching"]

/-- The loop of lines 211-214: one detail-page URL per `<h3>` entry,
`BASE_URL + href + INDEX_URL[1:]`, in document order; `none` when some
heading has no anchor (then `.attrs` on `None` raises). -/
def buildParksList : List (Option Anchor) → Option (List String)
  | [] => some []
  | none :: _ => none
  | some park_site :: rest =>
      (buildParksList rest).map
        (fun l => (BASE_URL ++ park_site.href ++ INDEX_URL.drop 1) :: l)

/-- The list comprehension of line 220:
`[get_site_instance(site_url) for site_url in parks_list]`, threading
the shared cache left to right; an exception aborts the whole list. -/
def mapSites (env : Env) (cache : Cache) : List String → RunResult (List NationalSite)
  | [] => ⟨Except.ok [], cache, 0, []⟩
  | site_url :: rest =>
      let r := get_site_instance env cache site_url
      match r.result with
      | Except.error e => ⟨Except.error e, r.cache, r.fetches, r.log⟩
      | Except.ok s =>
          let rr := mapSites env r.cache rest
          ⟨rr.result.map (fun ss => s :: ss), rr.cache,
            r.fetches + rr.fetches, r.log ++ rr.log⟩

/-- `get_sites_for_state` (lines 190-220): fetch-or-reuse the ordered
site-URL list under `state_url`, then resolve each site instance.  A
cached value that is not a URL list would fail on iteration/use. -/
def get_sites_for_state (env : Env) (cache : Cache) (state_url : String) :
    RunResult (List NationalSite) :=
  match alistLookup cache state_url with
  | some (CacheVal.urlList parks_list) =>
      let m := mapSites env cache parks_list
      ⟨m.result, m.cache, m.fetches, "Using cache" :: m.log⟩
  | some _ =>
      ⟨Except.error "TypeError: cached value is not a list of URLs",
        cache, 0, ["Using cache"]⟩
  | none =>
      match env.statePages state_url with
      | none =>
          ⟨Except.error "AttributeError: NoneType has no attribute find_all",
            cache, 1, ["Fetching"]⟩
      | some parks_info =>
          match buildParksList parks_info with
          | none =>
              ⟨Except.error "AttributeError: NoneType has no attribute attrs",
                cache, 1, ["Fetching"]⟩
          | some parks_list =>
              let cache' := alistSet cache state_url (CacheVal.urlList parks_list)
              let m := mapSites env cache' parks_list
              ⟨m.result, m.cache, 1 + m.fetches, "Fetching" :: m.log⟩

/-- The MapQuest radius-search endpoint (line 259). -/
def MAPQUEST_URL : String := "http://www.mapquestapi.com/search/v2/radius"

/-- `get_nearby_places` (lines 245-270): fetch-or-reuse the raw places
response under the site's zipcode.  The hit branch returns
`CACHE_DICT[zipcode]` verbatim, whatever its shape. -/
def get_nearby_places (env : Env) (cache : Cache) (site_object : NationalSite) :
    RunResult CacheVal :=
  let zipcode := site_object.zipcode
  let params : PlacesParams :=
    { key := env.apiKey, origin := zipcode, radius := 10, maxMatches := 10,
      ambiguities := "ignore", outFormat := "json" }
  match alistLookup cache zipcode with
  | some v => ⟨Except.ok v, cache, 0, ["Using cache"]⟩
  | none =>
      let response := env.placesApi MAPQUEST_URL params
      ⟨Except.ok (CacheVal.places response),
        alistSet cache zipcode (CacheVal.places response), 1, ["Fetching"]⟩

/-- The `NationalSite` built from a cached five-field record by the
shared return of `get_site_instance` (lines 183-187). -/
def recordSite (r : SiteRecord) : NationalSite :=
  { category := r.category, name := r.name, address := r.address,
    zipcode := r.zipcode, phone := r.phone }

/-- The record `get_site_instance` leaves in the cache after a fully
successful extraction from a page with title text `title`, designation
text `desig` and address card `card`. -/
def resolvedRecord (title desig : String) (card : Vcard) : SiteRecord :=
  { name := pyStrip title,
    category := if pyStrip desig ≠ "" then pyStrip desig else "no category",
    address := extractItemProp card.addressLocality "address" ++ ", "
                 ++ extractItemProp card.addressRegion "state",
    zipcode := extractItemProp card.postalCode "zipcode",
    phone := extractItemProp card.telephone "phone" }

/-- The record stored by lines 150-154 before category and address
extraction: the stripped title plus the four sentinel placeholders. -/
def interimRecord (title : String) : SiteRecord :=
  { name := pyStrip title, category := "no category", address := "no address",
    zipcode := "no zipcode", phone := "no phone" }

/-- A fully populated example address card. -/
def vcardFull : Vcard :=
  { addressLocality := some " Houghton ", addressRegion := some "MI",
    postalCode := some "49931", telephone := some " (906) 482-0984 " }

/-- An example detail page with every extraction source present. -/
def pageFull : DetailPage :=
  { heroContainer := some { titleAnchor := some "  Isle Royale ",
                            designationSpan := some " National Park " },
    vcard := some vcardFull }

/-- An example detail page whose hero title anchor holds only
whitespace, so the stripped name is the empty string. -/
def pageBlankName : DetailPage :=
  { heroContainer := some { titleAnchor := some "   ",
                            designationSpan := some "National Park" },
    vcard := some vcardFull }

/-- An example detail page with no `Hero-designation` span, so the
category extraction of lines 155-156 raises. -/
def pageNoDesignation : DetailPage :=
  { heroContainer := some { titleAnchor := some " Isle Royale ",
                            designationSpan := none },
    vcard := some vcardFull }

/-- The Michigan directory link of the spec scenario. -/
def michiganAnchor : Anchor := { text := "Michigan", href := "/state/mi/index.htm" }

/-- An example state-page heading anchor. -/
def isroAnchor : Anchor := { text := "Isle Royale", href := "/isro/" }

/-- An environment whose every detail page is `page`. -/
def mkEnv (page : DetailPage) : Env :=
  { mainPage := some [michiganAnchor],
    statePages := fun _ => some [some isroAnchor],
    detailPages := fun _ => page,
    placesApi := fun _ _ => Json.obj [("searchResults", Json.arr [])],
    apiKey := "DEMO-KEY" }

/-- Environment serving `pageFull`. -/
def envFull : Env := mkEnv pageFull

/-- Environment serving `pageBlankName`. -/
def envBlankName : Env := mkEnv pageBlankName

/-- Environment serving `pageNoDesignation`. -/
def envNoDesignation : Env := mkEnv pageNoDesignation

/-- The Isle Royale detail URL as built by the Site List Resolver. -/
def isroUrl : String := "https://www.nps.gov/isro/index.htm"

/-- The Michigan state-page URL. -/
def miStateUrl : String := "https://www.nps.gov/state/mi/index.htm"

/-- The record extracted from `pageFull`. -/
def recordFull : SiteRecord :=
  { name := "Isle Royale", category := "National Park",
    address := "Houghton, MI", zipcode := "49931", phone := "(906) 482-0984" }

/-- An example raw places-search payload. -/
def placesPayload : Json := Json.obj [("searchResults", Json.arr [])]

/-- The cache after resolving `pageFull` from an empty cache. -/
def cacheAfterFull : Cache := [(isroUrl, CacheVal.siteRecord recordFull)]

/-- The `NationalSite` resolved from `pageBlankName`: its `name` is the
empty string. -/
def siteBlankName : NationalSite :=
  { category := "National Park", name := "", address := "Houghton, MI",
    zipcode := "49931", phone := "(906) 482-0984" }

/-- A cache pre-populated with a places response under zipcode
`"49931"`. -/
def cache49931 : Cache := [("49931", CacheVal.places placesPayload)]

/-- The places-search request `get_nearby_places` issues on a miss:
the fixed endpoint with the parameters of lines 260-261. -/
def placesRequest (env : Env) (zipcode : String) : Json :=
  env.placesApi MAPQUEST_URL
    { key := env.apiKey, origin := zipcode, radius := 10, maxMatches := 10,
      ambiguities := "ignore", outFormat := "json" }

@[simp] theorem alistLookup_nil {α : Type} (k : String) :
    alistLookup ([] : List (String × α)) k = none := rfl

theorem alistLookup_alistSet {α : Type} (l : List (String × α)) (k : String) (v : α) :
    alistLookup (alistSet l k v) k = some v := by
  induction l with
  | nil => simp [alistSet, alistLookup]
  | cons hd tl ih =>
      obtain ⟨k', v'⟩ := hd
      by_cases h : k' = k
      · simp [alistSet, alistLookup, h]
      · simp [alistSet, alistLookup, h, ih]

theorem alistLookup_alistSet_ne {α : Type} (l : List (String × α)) {k' k : String}
    (v : α) (hne : k' ≠ k) :
    alistLookup (alistSet l k' v) k = alistLookup l k := by
  induction l with
  | nil => simp [alistSet, alistLookup, hne]
  | cons hd tl ih =>
      obtain ⟨k'', v''⟩ := hd
      by_cases h : k'' = k'
      · subst h
        simp [alistSet, alistLookup, hne]
      · simp only [alistSet, if_neg h]
        by_cases h2 : k'' = k
        · simp [alistLookup, h2]
        · simp [alistLookup, h2, ih]

theorem alistSet_alistSet {α : Type} (l : List (String × α)) (k : String) (v w : α) :
    alistSet (alistSet l k v) k w = alistSet l k w := by
  induction l with
  | nil => simp [alistSet]
  | cons hd tl ih =>
      obtain ⟨k', v'⟩ := hd
      by_cases h : k' = k
      · simp [alistSet, h]
      · simp [alistSet, h, ih]

theorem extractItemProp_none (key : String) :
    extractItemProp none key = "no " ++ key := rfl

theorem extractItemProp_blank {text : String} (key : String) (h : pyStrip text = "") :
    extractItemProp (some text) key = "no " ++ key := by
  simp [extractItemProp, h]

theorem extractItemProp_nonblank {text : String} (key : String) (h : pyStrip text ≠ "") :
    extractItemProp (some text) key = pyStrip text := by
  simp [extractItemProp, h]

theorem append_no_ne_empty (key : String) : "no " ++ key ≠ "" := by
  intro h
  have := congrArg String.data h
  simp [String.data_append] at this

theorem extractItemProp_ne_empty (o : Option String) (key : String) :
    extractItemProp o key ≠ "" := by
  cases o with
  | none => exact append_no_ne_empty key
  | some t =>
      by_cases h : pyStrip t = ""
      · rw [extractItemProp_blank key h]
        exact append_no_ne_empty key
      · rwa [extractItemProp_nonblank key h]

theorem comma_append_ne_empty (a b : String) : a ++ ", " ++ b ≠ "" := by
  intro h
  have := congrArg String.data h
  simp [String.data_append] at this

theorem get_site_instance_hit (env : Env) (cache : Cache) (url : String)
    (r : SiteRecord) (h : alistLookup cache url = some (CacheVal.siteRecord r)) :
    get_site_instance env cache url =
      ⟨Except.ok (recordSite r), cache, 0, ["Using cache"]⟩ := by
  simp [get_site_instance, h, buildFromCache, recordSite]

theorem get_site_instance_miss_ok (env : Env) (cache : Cache) (url : String)
    (title desig : String) (card : Vcard)
    (hmiss : alistLookup cache url = none)
    (hhero : (env.detailPages url).heroContainer =
      some { titleAnchor := some title, designationSpan := some desig })
    (hcard : (env.detailPages url).vcard = some card) :
    get_site_instance env cache url =
      ⟨Except.ok (recordSite (resolvedRecord title desig card)),
        alistSet cache url (CacheVal.siteRecord (resolvedRecord title desig card)),
        1, ["Fetching"]⟩ := by
  simp only [get_site_instance, hmiss, hhero, hcard, buildFromCache,
    alistSet_alistSet, alistLookup_alistSet]
  simp [recordSite, resolvedRecord]

theorem get_site_instance_miss_nodesig (env : Env) (cache : Cache) (url : String)
    (title : String)
    (hmiss : alistLookup cache url = none)
    (hhero : (env.detailPages url).heroContainer =
      some { titleAnchor := some title, designationSpan := none }) :
    get_site_instance env cache url =
      ⟨Except.error "AttributeError: NoneType has no attribute get_text",
        alistSet cache url (CacheVal.siteRecord (interimRecord title)),
        1, ["Fetching"]⟩ := by
  simp only [get_site_instance, hmiss, hhero]
  simp [interimRecord]

theorem get_site_instance_cache_cases (env : Env) (cache : Cache) (url : String) :
    (get_site_instance env cache url).cache = cache ∨
    (alistLookup cache url = none ∧
      ∃ r, (get_site_instance env cache url).cache =
        alistSet cache url (CacheVal.siteRecord r)) := by
  rcases hl : alistLookup cache url with _ | v
  · rcases hh : (env.detailPages url).heroContainer with _ | hero
    · left
      simp [get_site_instance, hl, hh]
    · obtain ⟨ta, ds⟩ := hero
      rcases hta : ta with _ | t
      · subst hta
        left
        simp [get_site_instance, hl, hh]
      · subst hta
        rcases hds : ds with _ | d
        · subst hds
          right
          refine ⟨rfl, interimRecord t, ?_⟩
          rw [get_site_instance_miss_nodesig env cache url t hl hh]
        · subst hds
          rcases hc : (env.detailPages url).vcard with _ | card
          · right
            refine ⟨rfl, { name := pyStrip t,
                           category := if pyStrip d ≠ "" then pyStrip d else "no category",
                           address := "no address", zipcode := "no zipcode",
                           phone := "no phone" }, ?_⟩
            simp only [get_site_instance, hl, hh, hc, alistSet_alistSet]
          · right
            refine ⟨rfl, resolvedRecord t d card, ?_⟩
            rw [get_site_instance_miss_ok env cache url t d card hl hh hc]
  · left
    simp only [get_site_instance, hl, buildFromCache]
    rcases v with m | l' | r | j <;> simp [hl]

theorem mapSites_preserves (env : Env) (k : String) (v : CacheVal) :
    ∀ (l : List String) (cache : Cache), alistLookup cache k = some v →
      alistLookup (mapSites env cache l).cache k = some v := by
  intro l
  induction l with
  | nil =>
      intro cache h
      simpa [mapSites] using h
  | cons u rest ih =>
      intro cache h
      have hc : alistLookup (get_site_instance env cache u).cache k = some v := by
        rcases get_site_instance_cache_cases env cache u with heq | ⟨hnone, r, heq⟩
        · rw [heq]; exact h
        · rw [heq]
          rw [alistLookup_alistSet_ne]
          · exact h
          · intro hku
            rw [hku] at hnone
            rw [hnone] at h
            exact Option.noConfusion h
      simp only [mapSites]
      rcases hr : (get_site_instance env cache u).result with e | s
      · simpa [hr] using hc
      · simp only [hr]
        exact ih _ hc

theorem mapSites_all_hits (env : Env) :
    ∀ (l : List String) (cache : Cache),
      (∀ u ∈ l, ∃ r, alistLookup cache u = some (CacheVal.siteRecord r)) →
      ∃ sites, mapSites env cache l =
        ⟨Except.ok sites, cache, 0, List.replicate l.length "Using cache"⟩ := by
  intro l
  induction l with
  | nil =>
      intro cache _
      exact ⟨[], rfl⟩
  | cons u rest ih =>
      intro cache hall
      obtain ⟨r, hr⟩ := hall u (List.mem_cons_self u rest)
      have hu := get_site_instance_hit env cache u r hr
      obtain ⟨sites, hrest⟩ := ih cache (fun x hx => hall x (List.mem_cons_of_mem u hx))
      refine ⟨recordSite r :: sites, ?_⟩
      simp only [mapSites, hu]
      rw [hrest]
      simp [Except.map, List.replicate_succ]

theorem buildState_fold_lookup_notmem (anchors : List Anchor) :
    ∀ (init : List (String × String)) (k : String),
      (∀ x ∈ anchors, pyLower x.text ≠ k) →
      alistLookup (anchors.foldl
          (fun output state => alistSet output (pyLower state.text) (BASE_URL ++ state.href))
          init) k
        = alistLookup init k := by
  induction anchors with
  | nil => intro init k _; rfl
  | cons a rest ih =>
      intro init k h
      simp only [List.foldl_cons]
      rw [ih _ k (fun x hx => h x (List.mem_cons_of_mem a hx))]
      exact alistLookup_alistSet_ne init _ (h a (List.mem_cons_self a rest))

theorem buildState_fold_lookup (anchors : List Anchor) :
    ∀ (init : List (String × String)) (a : Anchor), a ∈ anchors →
      ((anchors.map fun x => pyLower x.text).Nodup) →
      alistLookup (anchors.foldl
          (fun output state => alistSet output (pyLower state.text) (BASE_URL ++ state.href))
          init) (pyLower a.text)
        = some (BASE_URL ++ a.href) := by
  induction anchors with
  | nil => intro init a ha _; cases ha
  | cons hd rest ih =>
      intro init a ha hnd
      simp only [List.map_cons, List.nodup_cons] at hnd
      rcases List.mem_cons.mp ha with heq | hmem
      · subst heq
        simp only [List.foldl_cons]
        rw [buildState_fold_lookup_notmem rest _ (pyLower a.text) ?_]
        · exact alistLookup_alistSet init (pyLower a.text) (BASE_URL ++ a.href)
        · intro x hx hxa
          exact hnd.1 (hxa ▸ List.mem_map_of_mem (fun y => pyLower y.text) hx)
      · simp only [List.foldl_cons]
        exact ih _ a hmem hnd.2

/-- Claim C2: the Site Detail Resolver is idempotent — a successful
call against a cold cache (the URL absent) followed by a call against
the resulting warm cache yields field-for-field identical
`NationalSite` values, and the warm call performs zero network fetches
and logs `"Using cache"`. -/
theorem get_site_instance_idempotent (env : Env) (cache : Cache) (url : String)
    (s : NationalSite) (c' : Cache) (f : Nat) (l : List String)
    (hmiss : alistLookup cache url = none)
    (hrun : get_site_instance env cache url = ⟨Except.ok s, c', f, l⟩) :
    get_site_instance env c' url = ⟨Except.ok s, c', 0, ["Using cache"]⟩ := by
  rcases hh : (env.detailPages url).heroContainer with _ | hero
  · simp [get_site_instance, hmiss, hh] at hrun
  · obtain ⟨ta, ds⟩ := hero
    rcases hta : ta with _ | t
    · subst hta
      simp [get_site_instance, hmiss, hh] at hrun
    · subst hta
      rcases hds : ds with _ | d
      · subst hds
        rw [get_site_instance_miss_nodesig env cache url t hmiss hh] at hrun
        simp at hrun
      · subst hds
        rcases hc : (env.detailPages url).vcard with _ | card
        · simp [get_site_instance, hmiss, hh, hc] at hrun
        · rw [get_site_instance_miss_ok env cache url t d card hmiss hh hc] at hrun
          simp only [RunResult.mk.injEq, Except.ok.injEq] at hrun
          obtain ⟨hs, hc', _, _⟩ := hrun
          subst hs
          subst hc'
          exact get_site_instance_hit env _ url (resolvedRecord t d card)
            (alistLookup_alistSet cache url _)

/-- Claim C2 witness: the Isle Royale example page, resolved from an
empty cache and then from the warm cache. -/
theorem get_site_instance_idempotent_witness :
    alistLookup Cache.empty isroUrl = none
    ∧ get_site_instance envFull Cache.empty isroUrl =
        ⟨Except.ok (recordSite recordFull), cacheAfterFull, 1, ["Fetching"]⟩
    ∧ get_site_instance envFull cacheAfterFull isroUrl =
        ⟨Except.ok (recordSite recordFull), cacheAfterFull, 0, ["Using cache"]⟩ :=
  ⟨rfl, rfl,
    get_site_instance_idempotent envFull Cache.empty isroUrl
      (recordSite recordFull) cacheAfterFull 1 ["Fetching"] rfl rfl⟩

/-- Claim C3 counterexample: a detail page whose hero title anchor
holds only whitespace resolves to a `NationalSite` whose `name` field
is the blank string — the name extraction of lines 149-150 strips but
never substitutes a sentinel, so the blank-normalization claim fails
for `name`. -/
theorem blank_name_counterexample :
    (get_site_instance envBlankName Cache.empty isroUrl).result =
      Except.ok siteBlankName
    ∧ siteBlankName.name = "" :=
  ⟨rfl, rfl⟩

/-- Claim C3 (amended): on a cache-miss resolution, blank extraction
results are normalized to the sentinel for `category` and the four
address-card fields — those four `NationalSite` fields are never blank
— but `name` is only stripped, never normalized, so it is exactly the
trimmed title text (possibly blank). -/
theorem site_fields_normalized_except_name (env : Env) (cache : Cache)
    (url title desig : String) (card : Vcard) (s : NationalSite) (c' : Cache)
    (f : Nat) (l : List String)
    (hmiss : alistLookup cache url = none)
    (hhero : (env.detailPages url).heroContainer =
      some { titleAnchor := some title, designationSpan := some desig })
    (hcard : (env.detailPages url).vcard = some card)
    (hrun : get_site_instance env cache url = ⟨Except.ok s, c', f, l⟩) :
    s.name = pyStrip title
    ∧ s.category = (if pyStrip desig ≠ "" then pyStrip desig else "no category")
    ∧ s.category ≠ "" ∧ s.address ≠ "" ∧ s.zipcode ≠ "" ∧ s.phone ≠ "" := by
  rw [get_site_instance_miss_ok env cache url title desig card hmiss hhero hcard] at hrun
  simp only [RunResult.mk.injEq, Except.ok.injEq] at hrun
  obtain ⟨hs, -, -, -⟩ := hrun
  subst hs
  refine ⟨rfl, rfl, ?_, ?_, ?_, ?_⟩
  · simp only [recordSite, resolvedRecord]
    by_cases hd : pyStrip desig = ""
    · simp only [hd, ne_eq, not_true_eq_false, if_false]
      decide
    · simp [hd]
  · exact comma_append_ne_empty _ _
  · exact extractItemProp_ne_empty _ _
  · exact extractItemProp_ne_empty _ _

/-- Claim C3 (amended) witness: the Isle Royale example page. -/
theorem site_fields_normalized_except_name_witness :
    (recordSite recordFull).name = pyStrip "  Isle Royale "
    ∧ (recordSite recordFull).category =
        (if pyStrip " National Park " ≠ "" then pyStrip " National Park "
         else "no category")
    ∧ (recordSite recordFull).category ≠ ""
    ∧ (recordSite recordFull).address ≠ ""
    ∧ (recordSite recordFull).zipcode ≠ ""
    ∧ (recordSite recordFull).phone ≠ "" :=
  site_fields_normalized_except_name envFull Cache.empty isroUrl
    "  Isle Royale " " National Park " vcardFull (recordSite recordFull)
    cacheAfterFull 1 ["Fetching"] rfl rfl rfl rfl

/-- Claim C8: `load_cache` never fails — an absent backing file or
content on which the JSON decode raises both yield the empty mapping,
and a file holding a valid mapping yields exactly that mapping. -/
theorem load_cache_never_fails :
    load_cache FileContent.absent = Cache.empty
    ∧ load_cache FileContent.corrupt = Cache.empty
    ∧ ∀ cache : Cache, load_cache (FileContent.valid cache) = cache :=
  ⟨rfl, rfl, fun _ => rfl⟩

/-- Claim C9: cache persistence round-trips — saving any mapping and
loading it back reproduces exactly the same mapping content. -/
theorem cache_round_trip :
    ∀ cache : Cache, load_cache (save_cache cache) = cache :=
  fun _ => rfl

/-- Claim C10: the Site Detail Resolver is not atomic with respect to
the cache — on a miss it stores the interim record (stripped name plus
the four sentinel placeholders) before extracting the category, so
when the designation span is absent the call raises, the cache keeps
that interim record, and a subsequent call with the same URL reports a
cache hit (zero fetches, `"Using cache"`) and returns a `NationalSite`
built from the interim record. -/
theorem cache_nonatomic_on_extraction_failure (env : Env) (cache : Cache)
    (url title : String)
    (hmiss : alistLookup cache url = none)
    (hhero : (env.detailPages url).heroContainer =
      some { titleAnchor := some title, designationSpan := none }) :
    get_site_instance env cache url =
      ⟨Except.error "AttributeError: NoneType has no attribute get_text",
        alistSet cache url (CacheVal.siteRecord (interimRecord title)),
        1, ["Fetching"]⟩
    ∧ get_site_instance env
        (alistSet cache url (CacheVal.siteRecord (interimRecord title))) url =
      ⟨Except.ok (recordSite (interimRecord title)),
        alistSet cache url (CacheVal.siteRecord (interimRecord title)),
        0, ["Using cache"]⟩ :=
  ⟨get_site_instance_miss_nodesig env cache url title hmiss hhero,
    get_site_instance_hit env _ url (interimRecord title)
      (alistLookup_alistSet cache url _)⟩

/-- Claim C10 witness: the Isle Royale page with no designation span,
resolved from an empty cache and then again. -/
theorem cache_nonatomic_on_extraction_failure_witness :
    get_site_instance envNoDesignation Cache.empty isroUrl =
      ⟨Except.error "AttributeError: NoneType has no attribute get_text",
        alistSet Cache.empty isroUrl
          (CacheVal.siteRecord (interimRecord " Isle Royale ")),
        1, ["Fetching"]⟩
    ∧ get_site_instance envNoDesignation
        (alistSet Cache.empty isroUrl
          (CacheVal.siteRecord (interimRecord " Isle Royale "))) isroUrl =
      ⟨Except.ok (recordSite (interimRecord " Isle Royale ")),
        alistSet Cache.empty isroUrl
          (CacheVal.siteRecord (interimRecord " Isle Royale ")),
        0, ["Using cache"]⟩ :=
  cache_nonatomic_on_extraction_failure envNoDesignation Cache.empty isroUrl
    " Isle Royale " rfl rfl

/-- Claim C4: for each of the four address-card fields, an absent
item-property marker or a blank trimmed text yields exactly the `no
<key>` sentinel, and a non-empty trimmed text is passed through
trimmed and otherwise unchanged; the resolved `NationalSite` carries
these extraction results in its `zipcode`, `phone` and (via
composition) `address` fields. -/
theorem address_card_default_policy (env : Env) (cache : Cache)
    (url title desig : String) (card : Vcard) (s : NationalSite) (c' : Cache)
    (f : Nat) (l : List String)
    (hmiss : alistLookup cache url = none)
    (hhero : (env.detailPages url).heroContainer =
      some { titleAnchor := some title, designationSpan := some desig })
    (hcard : (env.detailPages url).vcard = some card)
    (hrun : get_site_instance env cache url = ⟨Except.ok s, c', f, l⟩) :
    s.zipcode = extractItemProp card.postalCode "zipcode"
    ∧ s.phone = extractItemProp card.telephone "phone"
    ∧ s.address = extractItemProp card.addressLocality "address" ++ ", "
        ++ extractItemProp card.addressRegion "state"
    ∧ (∀ key : String, extractItemProp none key = "no " ++ key)
    ∧ (∀ text key : String, pyStrip text = "" →
        extractItemProp (some text) key = "no " ++ key)
    ∧ (∀ text key : String, pyStrip text ≠ "" →
        extractItemProp (some text) key = pyStrip text)
    ∧ extractItemProp none "address" = "no address"
    ∧ extractItemProp none "state" = "no state"
    ∧ extractItemProp none "zipcode" = "no zipcode"
    ∧ extractItemProp none "phone" = "no phone" := by
  rw [get_site_instance_miss_ok env cache url title desig card hmiss hhero hcard] at hrun
  simp only [RunResult.mk.injEq, Except.ok.injEq] at hrun
  obtain ⟨hs, -, -, -⟩ := hrun
  subst hs
  exact ⟨rfl, rfl, rfl, fun _ => rfl,
    fun _ key h => extractItemProp_blank key h,
    fun _ key h => extractItemProp_nonblank key h,
    rfl, rfl, rfl, rfl⟩

/-- Claim C4 witness: the Isle Royale example page. -/
theorem address_card_default_policy_witness :
    (recordSite recordFull).zipcode = extractItemProp vcardFull.postalCode "zipcode"
    ∧ (recordSite recordFull).phone = extractItemProp vcardFull.telephone "phone"
    ∧ (recordSite recordFull).address =
        extractItemProp vcardFull.addressLocality "address" ++ ", "
          ++ extractItemProp vcardFull.addressRegion "state"
    ∧ (∀ key : String, extractItemProp none key = "no " ++ key)
    ∧ (∀ text key : String, pyStrip text = "" →
        extractItemProp (some text) key = "no " ++ key)
    ∧ (∀ text key : String, pyStrip text ≠ "" →
        extractItemProp (some text) key = pyStrip text)
    ∧ extractItemProp none "address" = "no address"
    ∧ extractItemProp none "state" = "no state"
    ∧ extractItemProp none "zipcode" = "no zipcode"
    ∧ extractItemProp none "phone" = "no phone" :=
  address_card_default_policy envFull Cache.empty isroUrl
    "  Isle Royale " " National Park " vcardFull (recordSite recordFull)
    cacheAfterFull 1 ["Fetching"] rfl rfl rfl rfl

/-- Claim C5: the resolved `address` is composed as `<locality>,
<region>` only after locality and region have each been individually
defaulted — when both resolve it is their trimmed texts joined, and
when either is unavailable the corresponding sentinel (`"no address"`
for the locality part, `"no state"` for the region part) takes its
place in the composition. -/
theorem address_composition (env : Env) (cache : Cache)
    (url title desig : String) (card : Vcard) (s : NationalSite) (c' : Cache)
    (f : Nat) (l : List String)
    (hmiss : alistLookup cache url = none)
    (hhero : (env.detailPages url).heroContainer =
      some { titleAnchor := some title, designationSpan := some desig })
    (hcard : (env.detailPages url).vcard = some card)
    (hrun : get_site_instance env cache url = ⟨Except.ok s, c', f, l⟩) :
    s.address = extractItemProp card.addressLocality "address" ++ ", "
        ++ extractItemProp card.addressRegion "state"
    ∧ (∀ tl tr : String, card.addressLocality = some tl →
        card.addressRegion = some tr → pyStrip tl ≠ "" → pyStrip tr ≠ "" →
        s.address = pyStrip tl ++ ", " ++ pyStrip tr)
    ∧ (card.addressLocality = none → card.addressRegion = none →
        s.address = "no address" ++ ", " ++ "no state")
    ∧ (∀ tr : String, card.addressLocality = none →
        card.addressRegion = some tr → pyStrip tr ≠ "" →
        s.address = "no address" ++ ", " ++ pyStrip tr)
    ∧ (∀ tl : String, card.addressLocality = some tl → pyStrip tl ≠ "" →
        card.addressRegion = none →
        s.address = pyStrip tl ++ ", " ++ "no state") := by
  rw [get_site_instance_miss_ok env cache url title desig card hmiss hhero hcard] at hrun
  simp only [RunResult.mk.injEq, Except.ok.injEq] at hrun
  obtain ⟨hs, -, -, -⟩ := hrun
  subst hs
  refine ⟨rfl, ?_, ?_, ?_, ?_⟩
  · intro tl tr h1 h2 h3 h4
    show extractItemProp card.addressLocality "address" ++ ", "
        ++ extractItemProp card.addressRegion "state" = _
    rw [h1, h2, extractItemProp_nonblank _ h3, extractItemProp_nonblank _ h4]
  · intro h1 h2
    show extractItemProp card.addressLocality "address" ++ ", "
        ++ extractItemProp card.addressRegion "state" = _
    rw [h1, h2]
    rfl
  · intro tr h1 h2 h3
    show extractItemProp card.addressLocality "address" ++ ", "
        ++ extractItemProp card.addressRegion "state" = _
    rw [h1, h2, extractItemProp_nonblank _ h3]
    rfl
  · intro tl h1 h2 h3
    show extractItemProp card.addressLocality "address" ++ ", "
        ++ extractItemProp card.addressRegion "state" = _
    rw [h1, h3, extractItemProp_nonblank _ h2]
    rfl

/-- Claim C5 witness: the Isle Royale example page, whose locality and
region both resolve. -/
theorem address_composition_witness :
    (recordSite recordFull).address =
      extractItemProp vcardFull.addressLocality "address" ++ ", "
        ++ extractItemProp vcardFull.addressRegion "state"
    ∧ (recordSite recordFull).address = pyStrip " Houghton " ++ ", " ++ pyStrip "MI" :=
  ⟨(address_composition envFull Cache.empty isroUrl
      "  Isle Royale " " National Park " vcardFull (recordSite recordFull)
      cacheAfterFull 1 ["Fetching"] rfl rfl rfl rfl).1,
   (address_composition envFull Cache.empty isroUrl
      "  Isle Royale " " National Park " vcardFull (recordSite recordFull)
      cacheAfterFull 1 ["Fetching"] rfl rfl rfl rfl).2.1
     " Houghton " "MI" rfl rfl (by decide) (by decide)⟩

/-- Claim C6: on a cache miss the Site List Resolver builds, in page
order, one detail URL per heading entry — the anchor href glued
between the base origin and the index suffix — stores the list under
the state URL, and logs `"Fetching"`; reversing the heading order
reverses the URL list. -/
theorem site_url_list_order :
    (∀ anchors : List Anchor,
        buildParksList (anchors.map some) =
          some (anchors.map fun a => BASE_URL ++ a.href ++ INDEX_URL.drop 1))
    ∧ (∀ anchors : List Anchor,
        buildParksList ((anchors.map some).reverse) =
          some ((anchors.map fun a => BASE_URL ++ a.href ++ INDEX_URL.drop 1).reverse))
    ∧ (∀ (env : Env) (cache : Cache) (state_url : String)
          (parks_info : List (Option Anchor)) (parks_list : List String),
        alistLookup cache state_url = none →
        env.statePages state_url = some parks_info →
        buildParksList parks_info = some parks_list →
        alistLookup (get_sites_for_state env cache state_url).cache state_url
          = some (CacheVal.urlList parks_list)
        ∧ (get_sites_for_state env cache state_url).log.head? = some "Fetching") := by
  have h1 : ∀ anchors : List Anchor,
      buildParksList (anchors.map some) =
        some (anchors.map fun a => BASE_URL ++ a.href ++ INDEX_URL.drop 1) := by
    intro anchors
    induction anchors with
    | nil => rfl
    | cons a rest ih => simp [buildParksList, ih]
  refine ⟨h1, ?_, ?_⟩
  · intro anchors
    rw [← List.map_reverse, h1, List.map_reverse]
  · intro env cache state_url parks_info parks_list hmiss hpage hbuild
    simp only [get_sites_for_state, hmiss, hpage, hbuild]
    constructor
    · exact mapSites_preserves env state_url (CacheVal.urlList parks_list)
        parks_list _ (alistLookup_alistSet cache state_url _)
    · rfl

/-- Claim C6 witness: a Michigan state page with one Isle Royale
heading entry. -/
theorem site_url_list_order_witness :
    alistLookup (get_sites_for_state envFull Cache.empty miStateUrl).cache miStateUrl
      = some (CacheVal.urlList [isroUrl])
    ∧ (get_sites_for_state envFull Cache.empty miStateUrl).log.head?
        = some "Fetching" :=
  site_url_list_order.2.2 envFull Cache.empty miStateUrl
    [some isroAnchor] [isroUrl] rfl rfl rfl

/-- Claim C7: on a cache miss the Directory Resolver builds the
mapping from each keyword-search link's lowercased visible text to its
absolute URL (`BASE_URL` prepended to the relative href), stores it
under the directory-page URL and returns it; under distinct lowered
link texts, every link is looked up to exactly its absolute URL, and
the Michigan scenario maps `"michigan"` to the absolute state URL. -/
theorem state_url_dict_mapping :
    (∀ (env : Env) (cache : Cache) (states_info : List Anchor),
        alistLookup cache (BASE_URL ++ INDEX_URL) = none →
        env.mainPage = some states_info →
        build_state_url_dict env cache =
          ⟨Except.ok (CacheVal.stateMap (buildStateOutput states_info)),
            alistSet cache (BASE_URL ++ INDEX_URL)
              (CacheVal.stateMap (buildStateOutput states_info)),
            1, ["Fetching"]⟩)
    ∧ (∀ (states_info : List Anchor) (a : Anchor), a ∈ states_info →
        ((states_info.map fun x => pyLower x.text).Nodup) →
        alistLookup (buildStateOutput states_info) (pyLower a.text)
          = some (BASE_URL ++ a.href))
    ∧ alistLookup (buildStateOutput [michiganAnchor]) "michigan"
        = some "https://www.nps.gov/state/mi/index.htm" := by
  refine ⟨?_, ?_, rfl⟩
  · intro env cache states_info hmiss hpage
    simp [build_state_url_dict, hmiss, hpage]
  · intro states_info a ha hnd
    exact buildState_fold_lookup states_info [] a ha hnd

/-- Claim C7 witness: the directory page holding the single Michigan
link of the scenario. -/
theorem state_url_dict_mapping_witness :
    build_state_url_dict envFull Cache.empty =
      ⟨Except.ok (CacheVal.stateMap (buildStateOutput [michiganAnchor])),
        alistSet Cache.empty (BASE_URL ++ INDEX_URL)
          (CacheVal.stateMap (buildStateOutput [michiganAnchor])),
        1, ["Fetching"]⟩ :=
  state_url_dict_mapping.1 envFull Cache.empty [michiganAnchor] rfl rfl

/-- Claim C1: every resolver follows the fetch-or-reuse discipline,
both halves.  Hit: the cached value is returned unchanged with zero
network fetches and a `"Using cache"` log — for the Site Detail
Resolver the returned `NationalSite` is built verbatim from the cached
record, and for the Site List Resolver the keyed stage adds no fetch
and resolves exactly the cached URL list.  Miss: the fetch runs once,
the result is stored under the key, and that stored value is returned
with a `"Fetching"` log — the Site Detail Resolver returns the
`NationalSite` built from the record it stored, and the Site List
Resolver stores the built URL list under the state URL (still present
after the whole call) and resolves exactly that stored list. -/
theorem fetch_or_reuse_discipline (env : Env) (cache : Cache) :
    (∀ v : CacheVal, alistLookup cache (BASE_URL ++ INDEX_URL) = some v →
        build_state_url_dict env cache = ⟨Except.ok v, cache, 0, ["Using cache"]⟩)
    ∧ (∀ states_info : List Anchor,
        alistLookup cache (BASE_URL ++ INDEX_URL) = none →
        env.mainPage = some states_info →
        build_state_url_dict env cache =
          ⟨Except.ok (CacheVal.stateMap (buildStateOutput states_info)),
            alistSet cache (BASE_URL ++ INDEX_URL)
              (CacheVal.stateMap (buildStateOutput states_info)),
            1, ["Fetching"]⟩
        ∧ alistLookup (build_state_url_dict env cache).cache (BASE_URL ++ INDEX_URL)
            = some (CacheVal.stateMap (buildStateOutput states_info)))
    ∧ (∀ (url : String) (r : SiteRecord),
        alistLookup cache url = some (CacheVal.siteRecord r) →
        get_site_instance env cache url =
          ⟨Except.ok (recordSite r), cache, 0, ["Using cache"]⟩)
    ∧ (∀ (url title desig : String) (card : Vcard),
        alistLookup cache url = none →
        (env.detailPages url).heroContainer =
          some { titleAnchor := some title, designationSpan := some desig } →
        (env.detailPages url).vcard = some card →
        get_site_instance env cache url =
          ⟨Except.ok (recordSite (resolvedRecord title desig card)),
            alistSet cache url (CacheVal.siteRecord (resolvedRecord title desig card)),
            1, ["Fetching"]⟩
        ∧ alistLookup (get_site_instance env cache url).cache url
            = some (CacheVal.siteRecord (resolvedRecord title desig card)))
    ∧ (∀ (state_url : String) (parks_list : List String),
        alistLookup cache state_url = some (CacheVal.urlList parks_list) →
        get_sites_for_state env cache state_url =
          ⟨(mapSites env cache parks_list).result,
            (mapSites env cache parks_list).cache,
            (mapSites env cache parks_list).fetches,
            "Using cache" :: (mapSites env cache parks_list).log⟩)
    ∧ (∀ (state_url : String) (parks_info : List (Option Anchor))
          (parks_list : List String),
        alistLookup cache state_url = none →
        env.statePages state_url = some parks_info →
        buildParksList parks_info = some parks_list →
        get_sites_for_state env cache state_url =
          ⟨(mapSites env (alistSet cache state_url (CacheVal.urlList parks_list))
              parks_list).result,
            (mapSites env (alistSet cache state_url (CacheVal.urlList parks_list))
              parks_list).cache,
            1 + (mapSites env (alistSet cache state_url (CacheVal.urlList parks_list))
              parks_list).fetches,
            "Fetching" :: (mapSites env (alistSet cache state_url
              (CacheVal.urlList parks_list)) parks_list).log⟩
        ∧ alistLookup (alistSet cache state_url (CacheVal.urlList parks_list)) state_url
            = some (CacheVal.urlList parks_list)
        ∧ alistLookup (get_sites_for_state env cache state_url).cache state_url
            = some (CacheVal.urlList parks_list))
    ∧ (∀ (site : NationalSite) (v : CacheVal),
        alistLookup cache site.zipcode = some v →
        get_nearby_places env cache site = ⟨Except.ok v, cache, 0, ["Using cache"]⟩)
    ∧ (∀ site : NationalSite, alistLookup cache site.zipcode = none →
        get_nearby_places env cache site =
          ⟨Except.ok (CacheVal.places (placesRequest env site.zipcode)),
            alistSet cache site.zipcode (CacheVal.places (placesRequest env site.zipcode)),
            1, ["Fetching"]⟩
        ∧ alistLookup (get_nearby_places env cache site).cache site.zipcode
            = some (CacheVal.places (placesRequest env site.zipcode))) := by
  refine ⟨?_, ?_, ?_, ?_, ?_, ?_, ?_, ?_⟩
  · intro v h
    simp [build_state_url_dict, h]
  · intro states_info hmiss hpage
    constructor
    · simp [build_state_url_dict, hmiss, hpage]
    · simp [build_state_url_dict, hmiss, hpage, alistLookup_alistSet]
  · intro url r h
    exact get_site_instance_hit env cache url r h
  · intro url title desig card hmiss hhero hcard
    constructor
    · exact get_site_instance_miss_ok env cache url title desig card hmiss hhero hcard
    · rw [get_site_instance_miss_ok env cache url title desig card hmiss hhero hcard]
      exact alistLookup_alistSet cache url _
  · intro state_url parks_list h
    simp [get_sites_for_state, h]
  · intro state_url parks_info parks_list hmiss hpage hbuild
    refine ⟨?_, alistLookup_alistSet cache state_url _, ?_⟩
    · simp [get_sites_for_state, hmiss, hpage, hbuild]
    · simp only [get_sites_for_state, hmiss, hpage, hbuild]
      exact mapSites_preserves env state_url (CacheVal.urlList parks_list)
        parks_list _ (alistLookup_alistSet cache state_url _)
  · intro site v h
    simp [get_nearby_places, h]
  · intro site h
    constructor
    · simp [get_nearby_places, h, placesRequest]
    · simp [get_nearby_places, h, placesRequest, alistLookup_alistSet]

/-- Claim C1 witness: the nearby-places scenario — zipcode `"49931"`
pre-populated in the cache is returned verbatim with zero network
calls. -/
theorem fetch_or_reuse_discipline_witness :
    alistLookup cache49931 "49931" = some (CacheVal.places placesPayload)
    ∧ get_nearby_places envFull cache49931 (recordSite recordFull) =
        ⟨Except.ok (CacheVal.places placesPayload), cache49931, 0, ["Using cache"]⟩ :=
  ⟨rfl,
    (fetch_or_reuse_discipline envFull cache49931).2.2.2.2.2.2.1
      (recordSite recordFull) (CacheVal.places placesPayload) rfl⟩

end NPS
